import Mathlib

/-!
Verification of the IndieScore OMR scoring repository.

This file embeds, as Lean definitions, the position-to-answer mapping and
scoring logic of the repository (the position mapper, the demo scorer, the
boundary calibration and the configuration converter), and proves
properties of those definitions.

Conventions of the embedding:
* Python strings are `List Char` where character-level reasoning is needed,
  `String` where only equality matters.
* Python floats appearing in this code are decimal literals that are
  compared against integer pixel coordinates, so they are embedded as `ℚ`.
* Python dicts keyed by stringified question numbers are association lists
  `List (ℕ × _)`; `dict.get(k, default)` is `(l.lookup k).getD default`.
* A Python function that returns an empty-dict failure sentinel is embedded
  with an `Option` result (`none` = the sentinel).
-/

namespace IndieScore

/-! ## `results/improved_position_mapper.py` -/

/-- The calibrated boundary list of `improved_position_to_choice`
(`results/improved_position_mapper.py`).  The last source literal is
`1743.3999999999999`, the 17-digit repr of the float64 value `1743.4`. -/
def boundaries : List ℚ :=
  [258.6, 629.8, 1001.0, 1372.2, 17433999999999999 / 10000000000000]

/-- The choice labels of `improved_position_to_choice`. -/
def choices : List String := ["A", "B", "C", "D", "E"]

/-- The scan loop of `improved_position_to_choice`: return the first choice
whose boundary strictly exceeds `x`; fall through to `"E"`. -/
def scanChoices (x : ℚ) : List (String × ℚ) → String
  | [] => "E"
  | (c, b) :: rest => if x < b then c else scanChoices x rest

/-- Embedding of `improved_position_to_choice(self, question_num, position)` from
`results/improved_position_mapper.py`.  `position` is a list of ints; only
its `x` component is read. -/
def improved_position_to_choice (question_num : ℤ) (position : ℤ × ℤ) : String :=
  scanChoices (position.1 : ℚ) (choices.zip boundaries)

/-- Claim C1: `improved_position_to_choice` scans the calibrated boundaries
`[258.6, 629.8, 1001.0, 1372.2, 1743.4]` in order and returns the first
choice among A–E whose boundary strictly exceeds `x`, returning `"E"` for
every `x` at or beyond the last boundary; in particular `x = 100 ↦ "A"`,
`x = 1000 ↦ "C"`, `x = 2000 ↦ "E"`.  (For the integer pixel coordinates the
function receives, the source's float64 literal `1743.3999999999999` and
the claim's `1743.4` separate exactly the same integers.) -/
theorem improved_position_to_choice_first_exceeding_boundary
    (question_num x y : ℤ) :
    improved_position_to_choice question_num (x, y) =
      (if (x : ℚ) < 258.6 then "A"
       else if (x : ℚ) < 629.8 then "B"
       else if (x : ℚ) < 1001.0 then "C"
       else if (x : ℚ) < 1372.2 then "D"
       else if (x : ℚ) < 1743.4 then "E"
       else "E")
    ∧ improved_position_to_choice question_num (100, y) = "A"
    ∧ improved_position_to_choice question_num (1000, y) = "C"
    ∧ improved_position_to_choice question_num (2000, y) = "E" := by
  refine ⟨?_, ?_, ?_, ?_⟩ <;>
    simp only [improved_position_to_choice, choices, boundaries, List.zip,
      List.zipWith, scanChoices] <;>
    norm_num

/-- Claim C10: the output of `improved_position_to_choice` depends only on
the `x` component of the position — neither the `y` coordinate nor the
question number influences the result. -/
theorem improved_position_to_choice_depends_only_on_x
    (q1 q2 x y1 y2 : ℤ) :
    improved_position_to_choice q1 (x, y1) =
      improved_position_to_choice q2 (x, y2) := rfl

/-! ## Character-level helpers (Python string operations on `List Char`) -/

/-- ASCII case folding on code points: uppercase letters are shifted to the
corresponding lowercase code point, all other code points are unchanged.
This is the code-point-level meaning of a case-insensitive comparison. -/
def foldNat (n : ℕ) : ℕ := if 65 ≤ n ∧ n ≤ 90 then n + 32 else n

/-- Case-fold a token character-wise (to compare tokens case-insensitively,
compare their `mapFold` images). -/
def mapFold (l : List Char) : List ℕ := l.map (fun c => foldNat c.toNat)

/-- Predicate: `c` is not a letter: its code point is neither an ASCII uppercase nor an
ASCII lowercase letter. -/
def NonLetter (c : Char) : Prop :=
  ¬(65 ≤ c.toNat ∧ c.toNat ≤ 90) ∧ ¬(97 ≤ c.toNat ∧ c.toNat ≤ 122)

instance : DecidablePred NonLetter := fun c => by unfold NonLetter; infer_instance

theorem foldNat_eq_of_nonletter {c c' : Char} (h' : NonLetter c')
    (heq : foldNat c.toNat = foldNat c'.toNat) : c = c' := by
  have h2 : foldNat c'.toNat = c'.toNat := by unfold foldNat; rw [if_neg h'.1]
  rw [h2] at heq
  by_cases hc : 65 ≤ c.toNat ∧ c.toNat ≤ 90
  · exfalso
    unfold foldNat at heq
    rw [if_pos hc] at heq
    exact h'.2 (by omega)
  · unfold foldNat at heq
    rw [if_neg hc] at heq
    calc c = Char.ofNat c.toNat := (Char.ofNat_toNat c).symm
    _ = Char.ofNat c'.toNat := by rw [heq]
    _ = c' := Char.ofNat_toNat c'

theorem mapFold_inj_aux : ∀ (e d : List Char), (∀ c ∈ e, NonLetter c) →
    mapFold d = mapFold e → d = e
  | [], d, _, h => by simpa [mapFold] using h
  | _ :: _, [], _, h => by simp [mapFold] at h
  | c' :: e', c :: d', he, h => by
    simp only [mapFold, List.map_cons, List.cons.injEq] at h
    have hc : c = c' := foldNat_eq_of_nonletter (he c' (by simp)) h.1
    have hd : d' = e' :=
      mapFold_inj_aux e' d' (fun x hx => he x (by simp [hx])) h.2
    simp [hc, hd]

/-- Case-insensitive equality against a letterless token coincides with
plain equality. -/
theorem mapFold_eq_iff (d e : List Char) (he : ∀ c ∈ e, NonLetter c) :
    mapFold d = mapFold e ↔ d = e :=
  ⟨mapFold_inj_aux e d he, fun h => by rw [h]⟩

/-- Python `str.rstrip()` on a `List Char`: drop trailing whitespace. -/
def isPySpace (c : Char) : Bool :=
  c = ' ' || c = '\t' || c = '\n' || c = '\r' || c = '\x0b' || c = '\x0c'

def pyRstrip (l : List Char) : List Char :=
  (l.reverse.dropWhile isPySpace).reverse

theorem mem_of_mem_pyRstrip {c : Char} {l : List Char}
    (h : c ∈ pyRstrip l) : c ∈ l := by
  unfold pyRstrip at h
  rw [List.mem_reverse] at h
  have := (List.dropWhile_sublist isPySpace (l := l.reverse)).subset h
  rwa [List.mem_reverse] at this

/-! ## `simple_demo.py`: `SimpleHybridDemo` -/

/-- The fixed answer key of `SimpleHybridDemo.__init__` (question number ↦
expected token), tokens as character lists. -/
def answer_key : List (ℕ × List Char) :=
  [(1, ['4']), (2, ['8']), (3, ['1', '2']), (4, ['7']), (5, ['1']),
   (6, ['2', '3']), (7, ['3', '4']), (8, ['5', '6']), (9, ['7', '8']),
   (10, ['9', '0']), (11, ['-', '5']), (12, ['-', '1', '2']),
   (13, ['+', '8']), (14, ['±', '3']), (15, ['1', '0', '0'])]

/-- Embedding of `total_questions = len(self.answer_key)` in `calculate_score`. -/
def total_questions : ℕ := answer_key.length

/-- Embedding of `self.answer_key.get(str(q), "")`. -/
def keyGet (q : ℕ) : List Char := (answer_key.lookup q).getD []

inductive Status where
  | correct
  | incorrect
  | blank
deriving DecidableEq

/-- The per-question classification branch of
`SimpleHybridDemo.calculate_score`: empty detected answer ⇒ blank; equal to
the expected answer ⇒ correct; otherwise ⇒ incorrect. -/
def classify (detected : ℕ → List Char) (q : ℕ) : Status :=
  if detected q = [] then Status.blank
  else if detected q = keyGet q then Status.correct
  else Status.incorrect

structure ScoreResult where
  correct : ℕ
  incorrect : ℕ
  blank : ℕ
  percentage : ℚ
  comparisons : List (ℕ × Status)
deriving DecidableEq

/-- Embedding of `SimpleHybridDemo.calculate_score(detected_answers)`: loop over
questions `1..total_questions`, classify each, count the statuses and set
`score_percentage = (correct / total_questions) * 100`.  `detected` is the
lookup view of the detected-answers dict (absent question ↦ `""`). -/
def calculate_score (detected : ℕ → List Char) : ScoreResult :=
  let comparisons := (List.range' 1 total_questions).map
    (fun q => (q, classify detected q))
  let c := comparisons.countP (fun e => decide (e.2 = Status.correct))
  let i := comparisons.countP (fun e => decide (e.2 = Status.incorrect))
  let b := comparisons.countP (fun e => decide (e.2 = Status.blank))
  { correct := c, incorrect := i, blank := b,
    percentage := (c : ℚ) / (total_questions : ℚ) * 100,
    comparisons := comparisons }

/-- Modelled from the spec's words for the comparison rule of claim C2: the
classification the claim describes, with an explicitly case-insensitive
equality test. -/
def claimedClassify (e d : List Char) : Status :=
  if d = [] then Status.blank
  else if mapFold d = mapFold e then Status.correct
  else Status.incorrect

theorem classify_eq_claimed (detected : ℕ → List Char) (q : ℕ)
    (he : ∀ c ∈ keyGet q, NonLetter c) :
    classify detected q = claimedClassify (keyGet q) (detected q) := by
  unfold classify claimedClassify
  rcases eq_or_ne (detected q) [] with hd | hd
  · simp [hd]
  · simp [hd, mapFold_eq_iff _ _ he]

/-- Row bucket of a bubble in `SimpleHybridDemo.convert_bubbles_to_answers`:
`max(1, min(15, int(y / 100) + 1))` (pixel coordinates are nonnegative, so
`int` truncation is `Nat` division). -/
def question_num_of (b : ℕ × ℕ) : ℕ := max 1 (min 15 (b.2 / 100 + 1))

/-- Embedding of `column_chars` of `convert_bubbles_to_answers`. -/
def column_chars : List Char :=
  ['±', '-', '+', '0', '1', '2', '3', '4', '5', '6', '7', '8', '9']

/-- Embedding of `column_chars[min(12, max(0, int(x / 200)))]` (the clamped index is
always `< 13`, so the `getD` default is never read). -/
def symbol_of (b : ℕ × ℕ) : Char :=
  column_chars.getD (min 12 (max 0 (b.1 / 200))) '0'

/-- Append `b` to the entry of key `q` in an association list, inserting a
new entry at the end when the key is absent — the behaviour of the
`questions` dict build-up loop (Python dicts preserve insertion order). -/
def upsert (d : List (ℕ × List (ℕ × ℕ))) (q : ℕ) (b : ℕ × ℕ) :
    List (ℕ × List (ℕ × ℕ)) :=
  match d with
  | [] => [(q, [b])]
  | (k, v) :: rest =>
      if k = q then (k, v ++ [b]) :: rest else (k, v) :: upsert rest q b

/-- The `questions` dict of `convert_bubbles_to_answers`: bubbles grouped
by row bucket, per-question lists in detection order. -/
def groupBubbles (bubbles : List (ℕ × ℕ)) : List (ℕ × List (ℕ × ℕ)) :=
  bubbles.foldl (fun d b => upsert d (question_num_of b) b) []

/-- Insert `b` after every element whose x is `≤ b`'s x (so later-detected
bubbles land after earlier ones with equal x). -/
def insertByX : List (ℕ × ℕ) → (ℕ × ℕ) → List (ℕ × ℕ)
  | [], b => [b]
  | c :: rest, b => if c.1 ≤ b.1 then c :: insertByX rest b else b :: c :: rest

/-- Sorting `bubble_positions.sort(key=lambda b: b[0])`: Python's `sort` is
a stable ascending sort by x, and a stable sort is a unique function of its
input, here realised as left-fold insertion. -/
def sortByX (ps : List (ℕ × ℕ)) : List (ℕ × ℕ) :=
  ps.foldl insertByX []

/-- The per-question body of `convert_bubbles_to_answers`: sort by x, take
the first 3 bubbles, map each to its column character, then
`answer.rstrip() if answer.rstrip() else "0"`. -/
def token_of (ps : List (ℕ × ℕ)) : List Char :=
  let answer := ((sortByX ps).take 3).map symbol_of
  if pyRstrip answer = [] then ['0'] else pyRstrip answer

/-- Embedding of `SimpleHybridDemo.convert_bubbles_to_answers` as the association list
`answers` it builds (question number ↦ detected token). -/
def convert_bubbles_to_answers (bubbles : List (ℕ × ℕ)) :
    List (ℕ × List Char) :=
  (groupBubbles bubbles).map (fun e => (e.1, token_of e.2))

/-- Embedding of `detected_answers.get(str(q), "")` over the converted answers. -/
def answersGet (bubbles : List (ℕ × ℕ)) (q : ℕ) : List Char :=
  ((convert_bubbles_to_answers bubbles).lookup q).getD []

theorem lookup_cons_unfold {α : Type} (k q : ℕ) (v : α) (t : List (ℕ × α)) :
    (((k, v) :: t).lookup q) = if q = k then some v else t.lookup q := by
  by_cases h : q = k
  · subst h; simp [List.lookup]
  · have hb : (q == k) = false := beq_eq_false_iff_ne.mpr h
    simp [List.lookup, hb, h]

theorem lookup_upsert (d : List (ℕ × List (ℕ × ℕ))) (k q : ℕ) (b : ℕ × ℕ) :
    (upsert d k b).lookup q =
      if k = q then some (((d.lookup q).getD []) ++ [b]) else d.lookup q := by
  induction d with
  | nil =>
    rw [upsert, lookup_cons_unfold]
    by_cases h : k = q
    · subst h; simp
    · rw [if_neg (fun hh => h hh.symm), if_neg h]
  | cons hd tl ih =>
    obtain ⟨k', v⟩ := hd
    by_cases hk : k' = k
    · subst hk
      by_cases hq : k' = q
      · subst hq
        simp [upsert, lookup_cons_unfold]
      · simp [upsert, lookup_cons_unfold, Ne.symm hq, hq]
    · rw [upsert, if_neg hk, lookup_cons_unfold, lookup_cons_unfold, ih]
      by_cases hq : q = k'
      · subst hq
        rw [if_pos rfl, if_pos rfl, if_neg (fun h => hk h.symm)]
      · rw [if_neg hq, if_neg hq]

theorem lookup_foldl_upsert (bubbles : List (ℕ × ℕ))
    (d : List (ℕ × List (ℕ × ℕ))) (q : ℕ) :
    ((bubbles.foldl (fun d b => upsert d (question_num_of b) b) d).lookup q) =
      (match d.lookup q with
       | some v =>
           some (v ++ bubbles.filter (fun b => decide (question_num_of b = q)))
       | none =>
           if bubbles.filter (fun b => decide (question_num_of b = q)) = []
           then none
           else some (bubbles.filter (fun b => decide (question_num_of b = q)))) := by
  induction bubbles generalizing d with
  | nil => cases hd : d.lookup q <;> simp [hd]
  | cons b rest ih =>
    rw [List.foldl_cons, ih, lookup_upsert]
    by_cases hb : question_num_of b = q
    · rw [if_pos hb, List.filter_cons_of_pos (by simp [hb])]
      cases hd : d.lookup q with
      | some v => simp [hd]
      | none => simp [hd]
    · rw [if_neg hb, List.filter_cons_of_neg (by simp [hb])]

/-- The `questions` dict has an entry for `q` exactly when some bubble has
row bucket `q`, and that entry lists exactly the bubbles of row bucket `q`
in detection order. -/
theorem groupBubbles_lookup (bubbles : List (ℕ × ℕ)) (q : ℕ) :
    (groupBubbles bubbles).lookup q =
      (if bubbles.filter (fun b => decide (question_num_of b = q)) = []
       then none
       else some (bubbles.filter (fun b => decide (question_num_of b = q)))) := by
  simpa using lookup_foldl_upsert bubbles [] q

theorem lookup_map_snd {α β : Type} (l : List (ℕ × α)) (f : α → β) (q : ℕ) :
    (l.map (fun e => (e.1, f e.2))).lookup q = (l.lookup q).map f := by
  induction l with
  | nil => rfl
  | cons h t ih =>
    simp [List.lookup]
    split <;> simp [ih]

/-- Claim C2: `calculate_score` classifies each question as blank when the
detected token is empty, correct when it equals the expected token
(case-insensitive comparison — which, against this letterless answer key,
coincides with the code's exact comparison), and incorrect otherwise; and a
sheet with no detected marks scores 0 correct, `total_questions` blank and
percentage 0. -/
theorem calculate_score_classification_and_blank_sheet
    (detected : ℕ → List Char) :
    (∀ q, 1 ≤ q → q ≤ total_questions →
      classify detected q = claimedClassify (keyGet q) (detected q))
    ∧ (calculate_score (answersGet [])).correct = 0
    ∧ (calculate_score (answersGet [])).incorrect = 0
    ∧ (calculate_score (answersGet [])).blank = total_questions
    ∧ (calculate_score (answersGet [])).percentage = 0 := by
  refine ⟨?_, by decide, by decide, by decide, ?_⟩
  · intro q h1 h2
    have h15 : total_questions = 15 := rfl
    rw [h15] at h2
    interval_cases q <;> exact classify_eq_claimed _ _ (by decide)
  · have h0 : ((List.range' 1 total_questions).map
        (fun q => (q, classify (answersGet []) q))).countP
        (fun e => decide (e.2 = Status.correct)) = 0 := by decide
    simp [calculate_score, h0]

/-- Witness for C2's classification clause at a concrete detected sheet and
question. -/
theorem calculate_score_classification_case :
    classify (fun _ => ['4']) 1 = claimedClassify (keyGet 1) ['4'] :=
  (calculate_score_classification_and_blank_sheet (fun _ => ['4'])).1
    1 (by decide) (by decide)

/-- Counterexample to claim C6 as stated: the code buckets a mark at
`(x, y) = (0, 150)` into row `int(150 / 100) + 1 = 2`, while the claim's
formula `floor(150 / 100)` clamped to `[1, 15]` gives row 1; accordingly the
converted answers put the mark's symbol on question 2, not question 1. -/
theorem convert_bubbles_row_counterexample :
    question_num_of (0, 150) = 2 ∧ max 1 (min 15 (150 / 100)) = 1 ∧
    answersGet [(0, 150)] 2 = ['±'] ∧ answersGet [(0, 150)] 1 = [] := by
  decide

/-- Claim C6 (amended): the detected token of question `q` is built from
exactly the marks whose row bucket `floor(y / row_height) + 1`, clamped to
`[1, total_questions]`, equals `q`; those marks are sorted by ascending x
and the symbols of the first at most 3 of them are concatenated left to
right (with the code's rstrip/`"0"` fallback applied to the result), the
token being empty when no mark falls in row `q`. -/
theorem convert_bubbles_to_answers_grouping (bubbles : List (ℕ × ℕ))
    (q : ℕ) :
    answersGet bubbles q =
      (if bubbles.filter (fun b => decide (max 1 (min 15 (b.2 / 100 + 1)) = q)) = []
       then []
       else
         (fun a => if pyRstrip a = [] then ['0'] else pyRstrip a)
           (((sortByX (bubbles.filter
               (fun b => decide (max 1 (min 15 (b.2 / 100 + 1)) = q)))).take 3).map
             symbol_of)) := by
  show answersGet bubbles q =
      (if bubbles.filter (fun b => decide (question_num_of b = q)) = []
       then []
       else
         (fun a => if pyRstrip a = [] then ['0'] else pyRstrip a)
           (((sortByX (bubbles.filter
               (fun b => decide (question_num_of b = q)))).take 3).map
             symbol_of))
  unfold answersGet convert_bubbles_to_answers
  rw [lookup_map_snd, groupBubbles_lookup]
  by_cases hf :
      bubbles.filter (fun b => decide (question_num_of b = q)) = []
  · simp [hf]
  · simp [hf, token_of]

/-- The outcome of processing one sheet (`process_single_image`): either a
score record or a recorded failure carrying the error message.  The Python
method returns a result dict in the first case and an `"error"` dict from
its `except` clause in the second; it never propagates the exception. -/
inductive ProcResult where
  | ok (score : ScoreResult)
  | failed (msg : String)

def ProcResult.isOk : ProcResult → Bool
  | .ok _ => true
  | .failed _ => false

/-- Embedding of `SimpleHybridDemo.process_single_image`: a sheet whose image loads
yields a scored result; a sheet whose processing raises (`cv2.imread`
returning `None` makes `detect_bubbles_simple` raise `ValueError`) is
caught by the `try/except` and recorded as a failure entry. -/
def process_single_image : Option (List (ℕ × ℕ)) → ProcResult
  | none => ProcResult.failed "Could not load image"
  | some bubbles => ProcResult.ok (calculate_score (answersGet bubbles))

/-- Embedding of `SimpleHybridDemo.process_batch` (and likewise
`HybridOMRScorer.process_batch`): every sheet is processed, failures
becoming recorded entries rather than aborting the loop. -/
def process_batch (sheets : List (Option (List (ℕ × ℕ)))) : List ProcResult :=
  sheets.map process_single_image

/-- Claim C8: batch processing yields exactly one result per input sheet in
order; the failed results are exactly the malformed sheets and every other
sheet is still scored — in particular a batch of 2 valid sheets and 1
malformed record yields 2 scored results and 1 recorded failure. -/
theorem process_batch_failure_isolation :
    (∀ sheets : List (Option (List (ℕ × ℕ))),
      (process_batch sheets).length = sheets.length
      ∧ (process_batch sheets).countP ProcResult.isOk =
          sheets.countP (fun s => s.isSome)
      ∧ (process_batch sheets).countP (fun r => !r.isOk) =
          sheets.countP (fun s => s.isNone))
    ∧ process_batch [some [], some [(100, 50)], none] =
        [ProcResult.ok (calculate_score (answersGet [])),
         ProcResult.ok (calculate_score (answersGet [(100, 50)])),
         ProcResult.failed "Could not load image"]
    ∧ (process_batch [some [], some [(100, 50)], none]).countP
        ProcResult.isOk = 2
    ∧ (process_batch [some [], some [(100, 50)], none]).countP
        (fun r => !r.isOk) = 1 := by
  refine ⟨?_, rfl, rfl, rfl⟩
  intro sheets
  refine ⟨by simp [process_batch], ?_, ?_⟩ <;>
  · rw [process_batch, List.countP_map]
    refine List.countP_congr (fun s _ => ?_)
    cases s <;> rfl

/-! ## `calibrate_positions.py` -/

/-- Python `min(x0 :: l)` as a fold. -/
def listMin (x : ℚ) (l : List ℚ) : ℚ := l.foldl min x

/-- Python `max(x0 :: l)` as a fold. -/
def listMax (x : ℚ) (l : List ℚ) : ℚ := l.foldl max x

theorem listMin_le (l : List ℚ) (x : ℚ) :
    listMin x l ≤ x ∧ ∀ y ∈ l, listMin x l ≤ y := by
  induction l generalizing x with
  | nil => simp [listMin]
  | cons a t ih =>
    have h := ih (min x a)
    refine ⟨le_trans h.1 (min_le_left x a), ?_⟩
    intro y hy
    rcases List.mem_cons.mp hy with rfl | hy
    · exact le_trans h.1 (min_le_right x y)
    · exact h.2 y hy

theorem listMin_mem (l : List ℚ) (x : ℚ) :
    listMin x l = x ∨ listMin x l ∈ l := by
  induction l generalizing x with
  | nil => simp [listMin]
  | cons a t ih =>
    rcases ih (min x a) with h | h
    · rcases min_choice x a with hm | hm
      · exact Or.inl (by rw [listMin, List.foldl_cons] at *; rw [h, hm])
      · refine Or.inr (List.mem_cons.mpr (Or.inl ?_))
        rw [listMin, List.foldl_cons] at *; rw [h, hm]
    · exact Or.inr (List.mem_cons.mpr (Or.inr h))

theorem listMax_ge (l : List ℚ) (x : ℚ) :
    x ≤ listMax x l ∧ ∀ y ∈ l, y ≤ listMax x l := by
  induction l generalizing x with
  | nil => simp [listMax]
  | cons a t ih =>
    have h := ih (max x a)
    refine ⟨le_trans (le_max_left x a) h.1, ?_⟩
    intro y hy
    rcases List.mem_cons.mp hy with rfl | hy
    · exact le_trans (le_max_right x y) h.1
    · exact h.2 y hy

theorem listMax_mem (l : List ℚ) (x : ℚ) :
    listMax x l = x ∨ listMax x l ∈ l := by
  induction l generalizing x with
  | nil => simp [listMax]
  | cons a t ih =>
    rcases ih (max x a) with h | h
    · rcases max_choice x a with hm | hm
      · exact Or.inl (by rw [listMax, List.foldl_cons] at *; rw [h, hm])
      · refine Or.inr (List.mem_cons.mpr (Or.inl ?_))
        rw [listMax, List.foldl_cons] at *; rw [h, hm]
    · exact Or.inr (List.mem_cons.mpr (Or.inr h))

/-- The computed part of the analysis dict returned by
`analyze_numeric_positions`. -/
structure NumericAnalysis where
  xMin : ℚ
  xMax : ℚ
  columnWidth : ℚ
  signBoundaries : List ℚ
  digitBoundaries : List ℚ
deriving DecidableEq

/-- Embedding of `analyze_numeric_positions` from `calibrate_positions.py`, on the
collected mark positions.  An empty sample takes the
`if not all_positions: return {}` path, embedded as `none` (and the
function's enclosing `try/except` also only ever returns `{}`, never
raising).  Otherwise `column_width = (x_max - x_min) / (num_columns - 1)`
with `num_columns = 13`, sign boundaries at `x_min + (i + 0.5) * column_width`
for `i in range(3)` and digit boundaries at the same formula for
`i in range(3, 13)`. -/
def analyze_numeric_positions : List (ℚ × ℚ) → Option NumericAnalysis
  | [] => none
  | p :: rest =>
    let xs := rest.map Prod.fst
    let x_min := listMin p.1 xs
    let x_max := listMax p.1 xs
    let column_width := (x_max - x_min) / (13 - 1)
    some { xMin := x_min, xMax := x_max, columnWidth := column_width,
           signBoundaries := (List.range' 0 3).map
             (fun i : ℕ => x_min + ((i : ℚ) + 0.5) * column_width),
           digitBoundaries := (List.range' 3 10).map
             (fun i : ℕ => x_min + ((i : ℚ) + 0.5) * column_width) }

/-- All boundaries of an analysis (signs then digits), `[]` for the empty
sentinel. -/
def allBoundaries (o : Option NumericAnalysis) : List ℚ :=
  o.elim [] (fun a => a.signBoundaries ++ a.digitBoundaries)

/-- Counterexample to claim C3 as stated: on the sample with x-coordinates
`{0, 1200}` the code places a boundary at `x_min + (i + 0.5) * column_width`
for each `i` in `0..12` — 13 boundaries, the last at 1250 — and not for
exactly `i` in `0..11` as the claim says. -/
theorem analyze_numeric_positions_boundary_count :
    (allBoundaries (analyze_numeric_positions [(0, 0), (1200, 0)])).length = 13
    ∧ allBoundaries (analyze_numeric_positions [(0, 0), (1200, 0)]) =
        (List.range' 0 13).map (fun i : ℕ => ((i : ℚ) + 0.5) * 100)
    ∧ allBoundaries (analyze_numeric_positions [(0, 0), (1200, 0)]) ≠
        (List.range' 0 12).map (fun i : ℕ => ((i : ℚ) + 0.5) * 100) := by
  have hb : allBoundaries (analyze_numeric_positions [(0, 0), (1200, 0)]) =
      (List.range' 0 13).map (fun i : ℕ => ((i : ℚ) + 0.5) * 100) := by
    simp only [analyze_numeric_positions, allBoundaries, Option.elim]
    norm_num [listMin, listMax, List.range']
  refine ⟨by rw [hb]; rfl, hb, ?_⟩
  rw [hb]
  intro h
  have hlen := congrArg List.length h
  simp at hlen

/-- Claim C3 (amended): for a non-empty sample with minimum `xmin` and
maximum `xmax`, calibration sets `column_width = (xmax - xmin) / (13 - 1)`
and places boundaries at `xmin + (i + 0.5) * column_width` for exactly the
indices `i` in `0..num_columns-1` (i.e. `0..12`), and the boundary sequence
is strictly increasing whenever `xmin < xmax`. -/
theorem analyze_numeric_positions_boundaries (p : ℚ × ℚ)
    (rest : List (ℚ × ℚ)) (xmin xmax : ℚ)
    (hminMem : xmin = p.1 ∨ xmin ∈ rest.map Prod.fst)
    (hminLe : xmin ≤ p.1 ∧ ∀ y ∈ rest.map Prod.fst, xmin ≤ y)
    (hmaxMem : xmax = p.1 ∨ xmax ∈ rest.map Prod.fst)
    (hmaxGe : p.1 ≤ xmax ∧ ∀ y ∈ rest.map Prod.fst, y ≤ xmax) :
    allBoundaries (analyze_numeric_positions (p :: rest)) =
      (List.range' 0 13).map
        (fun i : ℕ => xmin + ((i : ℚ) + 0.5) * ((xmax - xmin) / (13 - 1)))
    ∧ (xmin < xmax →
        List.Chain' (fun a b => a < b)
          (allBoundaries (analyze_numeric_positions (p :: rest)))) := by
  have hxmin : xmin = listMin p.1 (rest.map Prod.fst) := by
    have hm := listMin_mem (rest.map Prod.fst) p.1
    have hl := listMin_le (rest.map Prod.fst) p.1
    apply le_antisymm
    · rcases hm with h | h
      · rw [h]; exact hminLe.1
      · exact hminLe.2 _ h
    · rcases hminMem with h | h
      · rw [h]; exact hl.1
      · exact hl.2 _ h
  have hxmax : xmax = listMax p.1 (rest.map Prod.fst) := by
    have hm := listMax_mem (rest.map Prod.fst) p.1
    have hl := listMax_ge (rest.map Prod.fst) p.1
    apply le_antisymm
    · rcases hmaxMem with h | h
      · rw [h]; exact hl.1
      · exact hl.2 _ h
    · rcases hm with h | h
      · rw [h]; exact hmaxGe.1
      · exact hmaxGe.2 _ h
  have hbound : allBoundaries (analyze_numeric_positions (p :: rest)) =
      (List.range' 0 13).map
        (fun i : ℕ => xmin + ((i : ℚ) + 0.5) * ((xmax - xmin) / (13 - 1))) := by
    simp only [analyze_numeric_positions, allBoundaries, Option.elim,
      ← hxmin, ← hxmax]
    rfl
  refine ⟨hbound, fun hlt => ?_⟩
  rw [hbound]
  have hcw : 0 < (xmax - xmin) / (13 - 1) := by
    apply div_pos (sub_pos.mpr hlt)
    norm_num
  have h13 : List.range' 0 13 = [0, 1, 2, 3, 4, 5, 6, 7, 8, 9, 10, 11, 12] := rfl
  rw [h13]
  simp only [List.map_cons, List.map_nil, List.chain'_cons,
    List.chain'_singleton, and_true]
  repeat' apply And.intro
  all_goals nlinarith [hcw]

/-- Witness for the amended C3 at the concrete sample `{10, 1210}`. -/
theorem analyze_numeric_positions_boundaries_instance :
    allBoundaries (analyze_numeric_positions [((10 : ℚ), 0), (1210, 5)]) =
      (List.range' 0 13).map
        (fun i : ℕ => 10 + ((i : ℚ) + 0.5) * (((1210 : ℚ) - 10) / (13 - 1)))
    ∧ List.Chain' (fun a b => a < b)
        (allBoundaries (analyze_numeric_positions [((10 : ℚ), 0), (1210, 5)])) :=
  ⟨(analyze_numeric_positions_boundaries (10, 0) [(1210, 5)] 10 1210
      (by norm_num) (by norm_num) (by norm_num) (by norm_num)).1,
   (analyze_numeric_positions_boundaries (10, 0) [(1210, 5)] 10 1210
      (by norm_num) (by norm_num) (by norm_num) (by norm_num)).2 (by norm_num)⟩

/-- Counterexample to claim C7 as stated: given zero boundary samples,
`analyze_numeric_positions` returns its empty-result sentinel (`{}` in the
source, `none` here) by an ordinary `return` — there is no
`CalibrationError` anywhere in the repository, and the function's
`try/except` wrapper means it never raises at all. -/
theorem analyze_numeric_positions_empty_sentinel :
    analyze_numeric_positions [] = none := rfl

/-- Claim C7 (amended): calibration given zero boundary samples returns the
empty analysis sentinel — and does so exactly for the empty sample, so the
sentinel is an unambiguous failure signal that callers test for. -/
theorem analyze_numeric_positions_none_iff (ps : List (ℚ × ℚ)) :
    analyze_numeric_positions ps = none ↔ ps = [] := by
  cases ps <;> simp [analyze_numeric_positions]

/-- Embedding of `generate_numeric_mapping(x_min, x_max)` from `calibrate_positions.py`:
13 uniform columns of width `(x_max - x_min) / 13`, label `i` owning
`(x_min + i * w, x_min + (i + 1) * w)`. -/
def generate_numeric_mapping (x_min x_max : ℚ) : List (String × ℚ × ℚ) :=
  let column_width := (x_max - x_min) / 13
  let labels := ["±", "-", "+", "0", "1", "2", "3", "4", "5", "6", "7", "8", "9"]
  labels.enum.map (fun e =>
    (e.2, (x_min + (e.1 : ℚ) * column_width,
           x_min + ((e.1 : ℚ) + 1) * column_width)))

/-- Classify an x-coordinate by the mapping: the first label whose
half-open range `[start, end)` contains `x`. -/
def mappingLookup : List (String × ℚ × ℚ) → ℚ → Option String
  | [], _ => none
  | e :: rest, x =>
      if e.2.1 ≤ x ∧ x < e.2.2 then some e.1 else mappingLookup rest x

/-- Claim C4: the numeric mapping over `[0, 1300]` has uniformly 100-wide
columns and sends `x = 50 ↦ ±`, `x = 150 ↦ -`, `x = 1250 ↦ 9`. -/
theorem generate_numeric_mapping_uniform_and_lookup :
    (generate_numeric_mapping 0 1300).map (fun e => e.2.2 - e.2.1) =
      List.replicate 13 100
    ∧ mappingLookup (generate_numeric_mapping 0 1300) 50 = some "±"
    ∧ mappingLookup (generate_numeric_mapping 0 1300) 150 = some "-"
    ∧ mappingLookup (generate_numeric_mapping 0 1300) 1250 = some "9" := by
  have hmap : generate_numeric_mapping 0 1300 =
      [("±", (0, 100)), ("-", (100, 200)), ("+", (200, 300)),
       ("0", (300, 400)), ("1", (400, 500)), ("2", (500, 600)),
       ("3", (600, 700)), ("4", (700, 800)), ("5", (800, 900)),
       ("6", (900, 1000)), ("7", (1000, 1100)), ("8", (1100, 1200)),
       ("9", (1200, 1300))] := by
    norm_num [generate_numeric_mapping, List.enum, List.enumFrom]
  rw [hmap]
  refine ⟨by norm_num [List.replicate], ?_, ?_, ?_⟩ <;>
    · simp only [mappingLookup]
      norm_num

/-! ## `answer_key_manager.py`: `AnswerKeyBuilder` -/

/-- Python `str.upper()` on one ASCII character. -/
def pyUpperChar (c : Char) : Char :=
  if 97 ≤ c.toNat ∧ c.toNat ≤ 122 then Char.ofNat (c.toNat - 32) else c

/-- Python `str.upper()` on a token. -/
def pyUpper (l : List Char) : List Char := l.map pyUpperChar

/-- Embedding of `AnswerKeyBuilder.set_answers_from_list`: the `answers` dict it builds.
The loop is `for i in range(1, min(len(answers_list) + 1, total_q + 1))`,
i.e. `i` from 1 to `min(len(answers_list), total_q)`; inside it,
`answers_list[i-1].upper()` when `i ≤ len(answers_list)`, else the `"A"`
filler. -/
def set_answers_from_list (total_q : ℕ) (answers_list : List (List Char)) :
    List (ℕ × List Char) :=
  (List.range' 1 (min answers_list.length total_q)).map
    (fun i => (i, if i ≤ answers_list.length
                  then pyUpper (answers_list.getD (i - 1) [])
                  else ['A']))

/-- Embedding of `AnswerKeyBuilder.set_answers_from_pattern`: the `answers` dict it
builds, `answers[str(i)] = pattern[(i - 1) % len(pattern)].upper()` for `i`
in `1..total_q`. -/
def set_answers_from_pattern (total_q : ℕ) (pattern : List Char) :
    List (ℕ × List Char) :=
  (List.range' 1 total_q).map
    (fun i => (i, [pyUpperChar (pattern.getD ((i - 1) % pattern.length) ' ')]))

/-- Claim C5 evaluated at the failing input (`total_questions = 3`,
`answers_list = ["B"]`): the loop bound `min(len(answers_list) + 1,
total_q + 1)` makes the `"A"`-filler branch unreachable, so questions 2 and
3 are left absent instead of receiving the filler `'A'` that both the spec
and the branch's own `# Default if not enough answers` comment promise —
the answer key has gaps. -/
theorem set_answers_from_list_short_input_gap :
    (set_answers_from_list 3 [['B']]).lookup 1 = some ['B']
    ∧ (set_answers_from_list 3 [['B']]).lookup 2 = none
    ∧ (set_answers_from_list 3 [['B']]).lookup 3 = none
    ∧ (set_answers_from_list 3 [['B']]).length = 1
    ∧ (set_answers_from_pattern 3 ['B']).length = 3 := by
  decide

/-! ## `config_converter.py`: `ConfigConverter` -/

structure CPaper where
  width : ℤ
  height : ℤ
deriving DecidableEq

structure CQuestion where
  column : ℤ
  row : ℤ
  width : ℤ
  height : ℤ
  widthNext : ℤ
  heightNext : ℤ
  primary : Bool
deriving DecidableEq

structure CSheet where
  column : ℤ
  row : ℤ
  x : ℤ
  y : ℤ
  widthNext : ℤ
  heightNext : ℤ
  primary : Bool
deriving DecidableEq

structure CIDCheck where
  x : ℤ
  y : ℤ
  column : ℤ
  row : ℤ
  width : ℤ
  height : ℤ
  widthNext : ℤ
  heightNext : ℤ
  primary : Bool
deriving DecidableEq

structure CSubject where
  maxScore : ℤ
  choicesList : List String
  answerList : List (List Char)
  biasScore : List ℤ
deriving DecidableEq

/-- A well-formed C JSON configuration: one format block (the code reads
`Formats[0]` and writes a one-element `Formats`), one subject (the code
reads the first subject key and writes exactly one). -/
structure CConfig where
  paper : CPaper
  question : CQuestion
  sheet : CSheet
  studentIDCheck : CIDCheck
  subjectIDCheck : CIDCheck
  subjectKey : String
  subject : CSubject
deriving DecidableEq

/-- The Python config dict built by `c_json_to_python_config` (the
`answer_key` dict with keys `"1".."n"` is the list of its values in key
order). -/
structure PythonConfig where
  paperWidth : ℤ
  paperHeight : ℤ
  qaColumns : ℤ
  qaRows : ℤ
  qaWidth : ℤ
  qaHeight : ℤ
  qaWidthNext : ℤ
  qaHeightNext : ℤ
  saColumns : ℤ
  saRows : ℤ
  saX : ℤ
  saY : ℤ
  saWidthNext : ℤ
  saHeightNext : ℤ
  maxScore : ℤ
  choicesList : List String
  biasScores : List ℤ
  answerKeyList : List (List Char)
deriving DecidableEq

/-- Python `s.replace(a, b)` for single-character `a`, `b`: character-wise
substitution. -/
def mapRepl (a b : Char) (l : List Char) : List Char :=
  l.map (fun c => if c = a then b else c)

/-- Python `s.ljust(5)`: right-pad with spaces to length 5. -/
def ljust5 (l : List Char) : List Char :=
  l ++ List.replicate (5 - l.length) ' '

/-- The hard-coded `StudentIDCheck` block written by `python_to_c_json`. -/
def student_id_check_default : CIDCheck :=
  { x := 189, y := 771, column := 9, row := 10, width := 45, height := 45,
    widthNext := 49, heightNext := 52, primary := false }

/-- The hard-coded `SubjectIDCheck` block written by `python_to_c_json`. -/
def subject_id_check_default : CIDCheck :=
  { x := 12, y := 771, column := 3, row := 10, width := 45, height := 45,
    widthNext := 49, heightNext := 52, primary := false }

/-- Embedding of `ConfigConverter.c_json_to_python_config`: copy the layout parameters
and scoring data, and turn `AnswerList` into the `answer_key` dict, each
answer `rstrip()`-ed and with `&` replaced by `±`. -/
def c_json_to_python_config (c : CConfig) : PythonConfig :=
  { paperWidth := c.paper.width, paperHeight := c.paper.height,
    qaColumns := c.question.column, qaRows := c.question.row,
    qaWidth := c.question.width, qaHeight := c.question.height,
    qaWidthNext := c.question.widthNext, qaHeightNext := c.question.heightNext,
    saColumns := c.sheet.column, saRows := c.sheet.row,
    saX := c.sheet.x, saY := c.sheet.y,
    saWidthNext := c.sheet.widthNext, saHeightNext := c.sheet.heightNext,
    maxScore := c.subject.maxScore, choicesList := c.subject.choicesList,
    biasScores := c.subject.biasScore,
    answerKeyList := c.subject.answerList.map
      (fun a => mapRepl '&' '±' (pyRstrip a)) }

/-- Embedding of `ConfigConverter.python_to_c_json`: rebuild the C JSON dict; the
`StudentIDCheck`/`SubjectIDCheck` blocks, the `Primary` flags and the
subject key `"10 "` are hard-coded, and each answer has `±` replaced by `&`
and is padded with `ljust(5)`. -/
def python_to_c_json (p : PythonConfig) : CConfig :=
  { paper := { width := p.paperWidth, height := p.paperHeight },
    question := { column := p.qaColumns, row := p.qaRows, width := p.qaWidth,
                  height := p.qaHeight, widthNext := p.qaWidthNext,
                  heightNext := p.qaHeightNext, primary := true },
    sheet := { column := p.saColumns, row := p.saRows, x := p.saX,
               y := p.saY, widthNext := p.saWidthNext,
               heightNext := p.saHeightNext, primary := false },
    studentIDCheck := student_id_check_default,
    subjectIDCheck := subject_id_check_default,
    subjectKey := "10 ",
    subject := { maxScore := p.maxScore, choicesList := p.choicesList,
                 biasScore := p.biasScores,
                 answerList := p.answerKeyList.map
                   (fun a => ljust5 (mapRepl '±' '&' a)) } }

/-- A concrete well-formed C configuration whose subject key is `"07 "`. -/
def sample_c_config : CConfig :=
  { paper := { width := 3507, height := 2480 },
    question := { column := 13, row := 5, width := 40, height := 40,
                  widthNext := 47, heightNext := 48, primary := true },
    sheet := { column := 4, row := 9, x := 743, y := 51,
               widthNext := 714, heightNext := 268, primary := false },
    studentIDCheck := student_id_check_default,
    subjectIDCheck := subject_id_check_default,
    subjectKey := "07 ",
    subject := { maxScore := 100,
                 choicesList := ["+", "-", "&", "0", "1", "2", "3", "4",
                                 "5", "6", "7", "8", "9"],
                 answerList := [['1', '2', ' ', ' ', ' ']],
                 biasScore := [] } }

/-- Counterexample to claim C9 as stated: converting this well-formed C
configuration to the Python format and back does not reproduce it —
`python_to_c_json` hard-codes the subject key `"10 "`, so the original key
`"07 "` is lost. -/
theorem config_roundtrip_counterexample :
    python_to_c_json (c_json_to_python_config sample_c_config)
      ≠ sample_c_config
    ∧ (python_to_c_json (c_json_to_python_config sample_c_config)).subjectKey
        = "10 "
    ∧ sample_c_config.subjectKey = "07 " := by
  refine ⟨fun h => ?_, rfl, rfl⟩
  have := congrArg CConfig.subjectKey h
  simp [python_to_c_json, sample_c_config] at this

theorem mapRepl_roundtrip (a : List Char) (hpm : '±' ∉ a) :
    mapRepl '±' '&' (mapRepl '&' '±' a) = a := by
  unfold mapRepl
  rw [List.map_map]
  have hpt : ∀ c ∈ a,
      ((fun c => if c = '±' then '&' else c) ∘
       (fun c => if c = '&' then '±' else c)) c = c := by
    intro c hc
    have hcne : c ≠ '±' := fun h => hpm (h ▸ hc)
    by_cases hamp : c = '&'
    · simp [hamp]
    · simp [hamp, hcne]
  rw [List.map_congr_left hpt]
  simp

/-- Claim C9 (amended): the C → Python → C conversion reproduces the
original C configuration exactly on the class of configurations the
converters are built for — subject key `"10 "`, the hard-coded
`StudentIDCheck`/`SubjectIDCheck` blocks and `Primary` flags, and answers
that contain no `±` and already carry the C system's 5-wide space padding;
outside that class (other subject keys, other ID-check geometry, unpadded
answers) the round trip is lossy. -/
theorem config_roundtrip_of_normalized (c : CConfig)
    (hkey : c.subjectKey = "10 ")
    (hqp : c.question.primary = true)
    (hsp : c.sheet.primary = false)
    (hsid : c.studentIDCheck = student_id_check_default)
    (hsub : c.subjectIDCheck = subject_id_check_default)
    (hans : ∀ a ∈ c.subject.answerList,
      '±' ∉ a ∧ ljust5 (pyRstrip a) = a) :
    python_to_c_json (c_json_to_python_config c) = c := by
  obtain ⟨⟨pw, ph⟩, ⟨qc, qr, qw, qh, qwn, qhn, qp⟩,
    ⟨sc, sr, sx, sy, swn, shn, sp⟩, sid, subid, key, ⟨ms, ch, al, bs⟩⟩ := c
  simp only at hkey hqp hsp hsid hsub hans
  subst hkey
  subst hqp
  subst hsp
  subst hsid
  subst hsub
  have hpt : ∀ a ∈ al,
      ((fun a => ljust5 (mapRepl '±' '&' a)) ∘
       (fun a => mapRepl '&' '±' (pyRstrip a))) a = a := by
    intro a ha
    have h1 : '±' ∉ pyRstrip a :=
      fun hm => (hans a ha).1 (mem_of_mem_pyRstrip hm)
    simp only [Function.comp]
    rw [mapRepl_roundtrip (pyRstrip a) h1, (hans a ha).2]
  simp only [python_to_c_json, c_json_to_python_config, CConfig.mk.injEq,
    CPaper.mk.injEq, CQuestion.mk.injEq, CSheet.mk.injEq, CSubject.mk.injEq,
    List.map_map, and_true, true_and, eq_self_iff_true]
  rw [List.map_congr_left hpt]
  simp

/-- The sample configuration with the compliant subject key `"10 "`. -/
def sample_c_config_ok : CConfig :=
  { sample_c_config with subjectKey := "10 " }

/-- Witness for the amended C9 at a concrete compliant configuration. -/
theorem config_roundtrip_instance :
    python_to_c_json (c_json_to_python_config sample_c_config_ok) =
      sample_c_config_ok :=
  config_roundtrip_of_normalized sample_c_config_ok rfl rfl rfl rfl rfl
    (by decide)

end IndieScore
